import Mathlib

/-
  Verification development for the CMCM-SLF vineyard simulation
  (src/slf_old.ipynb).  The three components under scrutiny are embedded
  shallowly over exact rational arithmetic:

  * `slf_population_model` — the daily nymph/adult population recurrence;
  * `pesticide_application_strategy` — the stateful day-by-day scheduler,
    with its product scan, usage ledger and fatal `ValueError` paths
    (errors are the exact message strings the code raises);
  * `calculate_profit` — the outcome evaluator, including its access to
    the missing `harvest_day` column (modelled as a `KeyError`).

  Python's `int()` truncation toward zero is modelled by `pyInt`; the
  `and`/`or` precedence of the scheduler's candidate condition is
  reproduced literally in `rowCondB`.
-/

set_option maxRecDepth 16384

attribute [local semireducible] Rat.mul Rat.add Rat.sub Rat.inv Rat.ofScientific

/-- Python `int()` applied to a rational: truncation toward zero. -/
def pyInt (q : ℚ) : ℤ := if 0 ≤ q then ⌊q⌋ else ⌈q⌉

/-- temp_factor from the population model: max(0, min(1, (t - 10) / 15)). -/
def tempFactor (t : ℚ) : ℚ := max 0 (min 1 ((t - 10) / 15))

/-- precip_factor from the population model: 1 - min(1, |p - 5| / 10). -/
def precipFactor (p : ℚ) : ℚ := 1 - min 1 (|p - 5| / 10)

/-- Daily nymph/adult counts of `slf_population_model` (start_day = 1, as at
both call sites).  `temp d` / `precip d` are the day-d environment values
(the code reads `temperature[i]` with `i = day - 1`).  Day 1 hatches all
eggs; days 2-59 grow the nymphs; days 60-119 migrate a cohort
`int(nymphs * 0.01 * temp_factor * precip_factor)` to the adults; from day
120 all remaining nymphs migrate at once. -/
def slf_population_model (temp precip : ℕ → ℚ) (eggs : ℤ) : ℕ → ℤ × ℤ
  | 0 => (0, 0)
  | d + 1 =>
    if d = 0 then (eggs, 0)
    else
      let prev := slf_population_model temp precip eggs d
      let g : ℤ :=
        pyInt ((prev.1 : ℚ) * 0.01 * tempFactor (temp (d + 1)) *
          precipFactor (precip (d + 1)))
      if d + 1 < 60 then (prev.1 + g, prev.2)
      else if d + 1 < 120 then (prev.1 - g, prev.2 + g)
      else (0, prev.2 + prev.1)

/-- One row of the pesticide reference table (`pesticides.csv` after the
efficacy mapping): product name, chemical class, numeric efficacy on
nymphs/adults, PHI (days), Seasonal Max, Max Applications. -/
structure Product where
  name : String
  cls : String
  effNymphs : ℚ
  effAdults : ℚ
  phi : ℤ
  seasonalMax : ℚ
  maxApps : ℤ
deriving DecidableEq

/-- The scheduler's mutable usage state: `last_use_day` per class
(`none` is the initial -inf), `seasonal_usage` and `seasonal_use_count`
per product name. -/
structure Ledger where
  lastUse : String → Option ℤ
  usage : String → ℚ
  useCount : String → ℤ

/-- Pointwise update of a String-keyed map. -/
def updFn {α : Type} (f : String → α) (k : String) (v : α) : String → α :=
  fun s => if s = k then v else f s

/-- The ledger at the start of a run: every class unused, every counter 0. -/
def initLedger : Ledger :=
  { lastUse := fun _ => none, usage := fun _ => 0, useCount := fun _ => 0 }

/-- One row of the application schedule DataFrame. -/
structure Row where
  day : ℕ
  rowTemp : ℚ
  rowPrecip : ℚ
  nymphCount : ℤ
  adultCount : ℤ
  pesticide : Option String
  rate : ℚ
deriving DecidableEq

/-- First product of the table carrying a given name
(`df.loc[df.Product == nm].iloc[0]`); the scheduler only calls it with
names taken from the table. -/
def lookupFirst (all : List Product) (nm : String) : Product :=
  (all.find? (fun q => q.name == nm)).getD ⟨"", "", 0, 0, 0, 0, 0⟩

/-- time_since_last_use > PHI, with the -inf default making it true. -/
def tsluB (p : Product) (day : ℤ) (led : Ledger) : Bool :=
  match led.lastUse p.cls with
  | none => true
  | some d0 => decide (day - d0 > p.phi)

/-- The scheduler's candidate condition, with Python's `and`/`or`
precedence kept exactly: `(is_autumn and effAdults >= 0.75) or
((not is_autumn) and effNymphs >= 0.75 and tslu > PHI and
usage < SeasonalMax and count < MaxApplications)` — so in autumn only the
efficacy gate is tested. -/
def rowCondB (p : Product) (day : ℤ) (autumn : Bool) (led : Ledger) : Bool :=
  (autumn && decide (p.effAdults ≥ (0.75 : ℚ)))
  || (!autumn && decide (p.effNymphs ≥ (0.75 : ℚ))
      && tsluB p day led
      && decide (led.usage p.name < p.seasonalMax)
      && decide (led.useCount p.name < p.maxApps))

/-- The applied dose: `6.4 * efficacy`, where `efficacy` is the
`Effect_on_Nymphs` / `Effect_on_Adults` value of `insecticide_effectiveness`
for the first table row with the chosen name — i.e. the efficacy rating
multiplied by the relevant population count. -/
def doseOf (all : List Product) (autumn : Bool) (n a : ℤ) (p : Product) : ℚ :=
  6.4 * ((if autumn then (lookupFirst all p.name).effAdults
          else (lookupFirst all p.name).effNymphs) *
         (if autumn then (a : ℚ) else (n : ℚ)))

/-- The ledger after a successful application: cumulative volume,
application count and class last-use day, all in one state transition. -/
def commitLedger (led : Ledger) (p : Product) (day : ℤ) (rate : ℚ) : Ledger :=
  { lastUse := updFn led.lastUse p.cls (some day)
    usage := updFn led.usage p.name (led.usage p.name + rate)
    useCount := updFn led.useCount p.name (led.useCount p.name + 1) }

/-- The message of the seasonal-cap ValueError (product, no day). -/
def capMsg (nm : String) : String :=
  "Seasonal Max exceeded for chosen pesticide " ++ nm ++ "."

/-- The message of the no-qualifying-product ValueError (includes the day). -/
def noPestMsg (day : ℕ) : String :=
  "No suitable pesticide found or PHI constraints prevent application on day "
    ++ toString day ++ "."

/-- The inner product scan of `pesticide_application_strategy` for one day:
walks the table in order; a candidate passing `rowCondB` has its name
written into the schedule cell; if moreover the day clears
`harvest_day - PHI`, the dose is computed, the ledger committed, and the
post-commit cumulative volume compared with the seasonal cap (raising the
cap ValueError after the commit); otherwise the scan continues.  Returns
(cell, application rate, ledger, applied?). -/
def scanProducts (all : List Product) (day : ℤ) (autumn : Bool) (n a : ℤ)
    (harvest : ℤ) :
    List Product → Ledger → Option String →
      Except String (Option String × ℚ × Ledger × Bool)
  | [], led, cell => Except.ok (cell, 0, led, false)
  | p :: rest, led, cell =>
    if rowCondB p day autumn led then
      if day ≤ harvest - p.phi then
        let rate := doseOf all autumn n a p
        let led2 := commitLedger led p day rate
        if led2.usage p.name > (lookupFirst all p.name).seasonalMax then
          Except.error (capMsg p.name)
        else Except.ok (some p.name, rate, led2, true)
      else scanProducts all day autumn n a harvest rest led (some p.name)
    else scanProducts all day autumn n a harvest rest led cell

/-- The pressure test of one day: nymph count against 15*0.06 in summer
(day <= 92), adult count against 5*0.06 in autumn. -/
def pressureB (day : ℕ) (n a : ℤ) : Bool :=
  if day ≤ 92 then decide ((n : ℚ) ≥ 15 * 0.06)
  else decide ((a : ℚ) ≥ 5 * 0.06)

/-- One iteration of the scheduler's day loop.  The population comes from
`slf_population_model` with the call site's default `initial_eggs = 10`.
A pressured day either applies a product (recording the decision row and
the committed ledger), or raises: the cap ValueError from inside the scan,
or the no-product ValueError when the scan ends without applying. -/
def dayStep (temp precip : ℕ → ℚ) (tbl : List Product) (harvest : ℤ)
    (led : Ledger) (day : ℕ) : Except String (Row × Ledger) :=
  let pp := slf_population_model temp precip 10 day
  let autumn : Bool := decide (92 < day)
  if pressureB day pp.1 pp.2 then
    match scanProducts tbl (day : ℤ) autumn pp.1 pp.2 harvest tbl led none with
    | Except.error e => Except.error e
    | Except.ok (cell, rate, led2, applied) =>
      if applied then
        Except.ok (⟨day, temp day, precip day, pp.1, pp.2, cell, rate⟩, led2)
      else Except.error (noPestMsg day)
  else Except.ok (⟨day, temp day, precip day, pp.1, pp.2, none, 0⟩, led)

/-- The scheduler's day loop over a list of days, threading the ledger and
collecting one row per day; the first ValueError aborts the whole run. -/
def runDays (temp precip : ℕ → ℚ) (tbl : List Product) (harvest : ℤ) :
    List ℕ → Ledger → Except String (List Row × Ledger)
  | [], led => Except.ok ([], led)
  | d :: ds, led =>
    match dayStep temp precip tbl harvest led d with
    | Except.error e => Except.error e
    | Except.ok (row, led2) =>
      match runDays temp precip tbl harvest ds led2 with
      | Except.error e => Except.error e
      | Except.ok (rows, l3) => Except.ok (row :: rows, l3)

/-- Maximum PHI over the table (`df['PHI (days)'].max()`). -/
def maxPHI (tbl : List Product) : ℤ := ((tbl.map (fun p => p.phi)).max?).getD 0

/-- `pesticide_application_strategy` (N is the length of the environment
series, `season_length = len(temperature)`).  The function calls
`slf_population_model` with the hard-coded default `end_day = 183`, whose
loop reads `temperature[i]` for i = 0..182: a series shorter than 183
days dies there with an IndexError before any scheduling, and a longer
one dies building the schedule DataFrame from columns of different
lengths.  Only N = 183 proceeds: run the day loop over days 1..N, then
filter the schedule to the days with `day <= harvest_day - max PHI`. -/
def pesticide_application_strategy (temp precip : ℕ → ℚ) (N : ℕ)
    (harvest : ℤ) (tbl : List Product) : Except String (List Row) :=
  if N < 183 then Except.error ("IndexError: list index out of range")
  else if 183 < N then
    Except.error ("ValueError: All arrays must be of the same length")
  else
    match runDays temp precip tbl harvest (List.range' 1 N) initLedger with
    | Except.error e => Except.error e
    | Except.ok (rows, _) =>
        Except.ok (rows.filter (fun r => decide ((r.day : ℤ) ≤ harvest - maxPHI tbl)))

/-- Python truthiness of the schedule's pesticide cell: None and the empty
string are falsy. -/
def truthy : Option String → Bool
  | none => false
  | some s => !(s == "")

/-- The day loop of `calculate_profit`, accumulating pesticide cost and
mold impact; on the first row with a positive application rate the code
evaluates `i > df['harvest_day']`, a column the schedule does not have,
so the run dies with a KeyError there. -/
def profitGo (area c y p m : ℚ) : List Row → ℚ → ℚ → Except String ℚ
  | [], cost, mold => Except.ok (max 0 (y - mold - 0) * p - cost)
  | r :: rs, cost, mold =>
    let cost2 := if truthy r.pesticide then cost + c * area else cost
    let mold2 := mold + m * ((r.nymphCount : ℚ) + (r.adultCount : ℚ))
    if r.rate > 0 then Except.error ("KeyError: harvest_day")
    else profitGo area c y p m rs cost2 mold2

/-- `calculate_profit`: perimeter area `vineyard_length * 4 * depth`, then
the day loop. -/
def calculate_profit (vineyard_length depth : ℚ) (df : List Row)
    (pesticide_cost base_yield price_per_grape mold_growth_rate
      harvest_penalty_rate : ℚ) : Except String ℚ :=
  profitGo (vineyard_length * 4 * depth) pesticide_cost base_yield
    price_per_grape mold_growth_rate df 0 0

/-- Projection: the payload of a successful Except run. -/
def exceptOk {α : Type} : Except String α → Option α
  | Except.ok x => some x
  | Except.error _ => none

/-- Projection: the message of a failed Except run. -/
def exceptErr {α : Type} : Except String α → Option String
  | Except.ok _ => none
  | Except.error e => some e

/-- Projection: the final ledger of a successful day-loop run. -/
def okLedger : Except String (List Row × Ledger) → Option Ledger
  | Except.ok rl => some rl.2
  | Except.error _ => none

/-- Projection: the product name applied by a successful product scan. -/
def scanApplied : Except String (Option String × ℚ × Ledger × Bool) → Option String
  | Except.ok (c, _, _, true) => c
  | _ => none

/-- The full per-product qualification predicate as claim C1 words it
(five simultaneous conditions; modelled from the spec, decided as a Bool):
efficacy on the relevant stage >= 0.75, class rotation interval cleared,
cumulative volume after this dose within the cap, count below the maximum,
and the day clear of harvest by the PHI. -/
def claimFiveConditions (p : Product) (all : List Product) (day : ℤ)
    (autumn : Bool) (n a : ℤ) (harvest : ℤ) (led : Ledger) : Bool :=
  decide ((if autumn then p.effAdults else p.effNymphs) ≥ (0.75 : ℚ))
  && tsluB p day led
  && decide (led.usage p.name + doseOf all autumn n a p ≤ p.seasonalMax)
  && decide (led.useCount p.name < p.maxApps)
  && decide (day ≤ harvest - p.phi)

/-- The condition under which the scan actually applies a product:
`rowCondB` plus the harvest-interval check. -/
def applyPredB (day : ℤ) (autumn : Bool) (harvest : ℤ) (led : Ledger)
    (p : Product) : Bool :=
  rowCondB p day autumn led && decide (day ≤ harvest - p.phi)

/-- Constant 25-degree temperature series. -/
def t25 : ℕ → ℚ := fun _ => 25

/-- Constant optimal precipitation series. -/
def p5 : ℕ → ℚ := fun _ => 5

/-- Single-product table used in the concrete runs: Excellent on both
stages, PHI 0, seasonal cap 10000, at most 92 applications. -/
def alphaP : Product := ⟨"Alpha", "A", 1, 1, 0, 10000, 92⟩

/-- Product whose seasonal cap (5) is below a single dose. -/
def betaP : Product := ⟨"Beta", "B", 1, 1, 0, 5, 5⟩

/-- Product allowing a single application per season. -/
def gammaP : Product := ⟨"Gamma", "G", 1, 1, 0, 10000, 1⟩

/-- Full 183-day run over the Alpha table (harvest day 200): 92 summer
applications (64 fl oz each) exhaust `maxApps`, days 93-119 are
unpressured, and days 120-183 apply again through the autumn branch,
ending at 156 applications and 9984 fl oz, inside the 10000 cap. -/
def runAlpha183 : Except String (List Row) :=
  pesticide_application_strategy t25 p5 183 200 [alphaP]

/-- The ledger after the first 119 days of the 183-day Alpha run (the day
loop is incremental, so this prefix is shared by the full run). -/
def alphaLedger119 : Option Ledger :=
  okLedger (runDays t25 p5 [alphaP] 200 (List.range' 1 119) initLedger)

/-- 183-day run over the Beta table: dies on day 1 with the seasonal-cap
error. -/
def runBeta : Except String (List Row) :=
  pesticide_application_strategy t25 p5 183 200 [betaP]

/-- 183-day run over the Gamma table: dies on day 2, Gamma being
exhausted. -/
def runGamma : Except String (List Row) :=
  pesticide_application_strategy t25 p5 183 200 [gammaP]

/-- Full 183-day Alpha run whose harvest day 400 puts the truncation
bound `harvest - maxPHI = 400` beyond the season length. -/
def runAlpha400 : Except String (List Row) :=
  pesticide_application_strategy t25 p5 183 400 [alphaP]

/-- The decision row and ledger of the Alpha run's first day. -/
def d1pair : Row × Ledger :=
  match dayStep t25 p5 [alphaP] 200 initLedger 1 with
  | Except.ok rl => rl
  | Except.error _ => (⟨0, 0, 0, 0, 0, none, 0⟩, initLedger)

/-- Mapping over the payload of a successful Except run. -/
def mapOk {α β : Type} (f : α → β) : Except String α → Except String β
  | Except.ok x => Except.ok (f x)
  | Except.error e => Except.error e

/-- Unfolding equation of the population recurrence at day d + 2. -/
theorem pop_succ (temp precip : ℕ → ℚ) (eggs : ℤ) (d : ℕ) :
    slf_population_model temp precip eggs (d + 2) =
      (if d + 2 < 60 then
        ((slf_population_model temp precip eggs (d + 1)).1 +
          pyInt (((slf_population_model temp precip eggs (d + 1)).1 : ℚ) * 0.01 *
            tempFactor (temp (d + 2)) * precipFactor (precip (d + 2))),
         (slf_population_model temp precip eggs (d + 1)).2)
      else if d + 2 < 120 then
        ((slf_population_model temp precip eggs (d + 1)).1 -
          pyInt (((slf_population_model temp precip eggs (d + 1)).1 : ℚ) * 0.01 *
            tempFactor (temp (d + 2)) * precipFactor (precip (d + 2))),
         (slf_population_model temp precip eggs (d + 1)).2 +
          pyInt (((slf_population_model temp precip eggs (d + 1)).1 : ℚ) * 0.01 *
            tempFactor (temp (d + 2)) * precipFactor (precip (d + 2))))
      else (0, (slf_population_model temp precip eggs (d + 1)).2 +
        (slf_population_model temp precip eggs (d + 1)).1)) := rfl

theorem tempFactor_nonneg (t : ℚ) : 0 ≤ tempFactor t := le_max_left 0 _

theorem tempFactor_le_one (t : ℚ) : tempFactor t ≤ 1 :=
  max_le (by norm_num) (min_le_left 1 _)

theorem precipFactor_nonneg (p : ℚ) : 0 ≤ precipFactor p := by
  have h : min 1 (|p - 5| / 10) ≤ 1 := min_le_left _ _
  unfold precipFactor
  linarith

theorem precipFactor_le_one (p : ℚ) : precipFactor p ≤ 1 := by
  have h : (0 : ℚ) ≤ min 1 (|p - 5| / 10) := le_min (by norm_num) (by positivity)
  unfold precipFactor
  linarith

theorem pyInt_nonneg {q : ℚ} (h : 0 ≤ q) : 0 ≤ pyInt q := by
  simp only [pyInt, if_pos h]
  exact Int.floor_nonneg.mpr h

theorem pyInt_le_self {q : ℚ} (h : 0 ≤ q) : (pyInt q : ℚ) ≤ q := by
  simp only [pyInt, if_pos h]
  exact Int.floor_le q

/-- The daily increment product is non-negative when nymphs are. -/
theorem incr_nonneg {n : ℤ} (hn : 0 ≤ n) (t p : ℚ) :
    0 ≤ (n : ℚ) * 0.01 * tempFactor t * precipFactor p := by
  have hn' : (0 : ℚ) ≤ (n : ℚ) := by exact_mod_cast hn
  have h1 : (0 : ℚ) ≤ (n : ℚ) * 0.01 := by nlinarith
  have h2 : (0 : ℚ) ≤ (n : ℚ) * 0.01 * tempFactor t :=
    mul_nonneg h1 (tempFactor_nonneg t)
  exact mul_nonneg h2 (precipFactor_nonneg p)

/-- The daily migration cohort never exceeds the nymph count. -/
theorem incr_le_self {n : ℤ} (hn : 0 ≤ n) (t p : ℚ) :
    pyInt ((n : ℚ) * 0.01 * tempFactor t * precipFactor p) ≤ n := by
  have hn' : (0 : ℚ) ≤ (n : ℚ) := by exact_mod_cast hn
  have h1 : (n : ℚ) * 0.01 ≤ (n : ℚ) :=
    mul_le_of_le_one_right hn' (by norm_num)
  have h10 : (0 : ℚ) ≤ (n : ℚ) * 0.01 := by nlinarith
  have h2 : (n : ℚ) * 0.01 * tempFactor t ≤ (n : ℚ) * 0.01 :=
    mul_le_of_le_one_right h10 (tempFactor_le_one t)
  have h20 : (0 : ℚ) ≤ (n : ℚ) * 0.01 * tempFactor t :=
    mul_nonneg h10 (tempFactor_nonneg t)
  have h3 : (n : ℚ) * 0.01 * tempFactor t * precipFactor p ≤
      (n : ℚ) * 0.01 * tempFactor t :=
    mul_le_of_le_one_right h20 (precipFactor_le_one p)
  have h4 : (pyInt ((n : ℚ) * 0.01 * tempFactor t * precipFactor p) : ℚ) ≤ (n : ℚ) := by
    calc (pyInt ((n : ℚ) * 0.01 * tempFactor t * precipFactor p) : ℚ)
        ≤ (n : ℚ) * 0.01 * tempFactor t * precipFactor p :=
          pyInt_le_self (incr_nonneg hn t p)
      _ ≤ (n : ℚ) := by linarith
  exact_mod_cast h4

/-- Both population counts stay non-negative for non-negative eggs. -/
theorem pop_nonneg (temp precip : ℕ → ℚ) (eggs : ℤ) (he : 0 ≤ eggs) :
    ∀ d, 0 ≤ (slf_population_model temp precip eggs d).1 ∧
      0 ≤ (slf_population_model temp precip eggs d).2
  | 0 => by constructor <;> simp [slf_population_model]
  | 1 => by
    refine ⟨?_, ?_⟩ <;> simp [slf_population_model]
    exact he
  | d + 2 => by
    obtain ⟨hn, ha⟩ := pop_nonneg temp precip eggs he (d + 1)
    have hg0 : 0 ≤ pyInt (((slf_population_model temp precip eggs (d + 1)).1 : ℚ) *
        0.01 * tempFactor (temp (d + 2)) * precipFactor (precip (d + 2))) :=
      pyInt_nonneg (incr_nonneg hn _ _)
    have hgle : pyInt (((slf_population_model temp precip eggs (d + 1)).1 : ℚ) *
        0.01 * tempFactor (temp (d + 2)) * precipFactor (precip (d + 2))) ≤
        (slf_population_model temp precip eggs (d + 1)).1 :=
      incr_le_self hn _ _
    rw [pop_succ]
    split_ifs with h1 h2 <;> constructor <;> dsimp only <;> omega

/-- The mature count is zero throughout days 0-59. -/
theorem early_mat_zero (temp precip : ℕ → ℚ) (eggs : ℤ) :
    ∀ d, d ≤ 59 → (slf_population_model temp precip eggs d).2 = 0
  | 0, _ => rfl
  | 1, _ => rfl
  | d + 2, h => by
    rw [pop_succ, if_pos (by omega : d + 2 < 60)]
    exact early_mat_zero temp precip eggs (d + 1) (by omega)

/-- From day 120 on, the immature count is zero. -/
theorem late_imm_zero (temp precip : ℕ → ℚ) (eggs : ℤ) (d : ℕ) (h : 120 ≤ d) :
    (slf_population_model temp precip eggs d).1 = 0 := by
  obtain ⟨e, rfl⟩ : ∃ e, d = e + 2 := ⟨d - 2, by omega⟩
  rw [pop_succ, if_neg (by omega), if_neg (by omega)]

/-- Each day from day 60 on preserves the total population. -/
theorem pop_sum_step (temp precip : ℕ → ℚ) (eggs : ℤ) (d : ℕ) (h : 60 ≤ d) :
    (slf_population_model temp precip eggs d).1 +
      (slf_population_model temp precip eggs d).2 =
    (slf_population_model temp precip eggs (d - 1)).1 +
      (slf_population_model temp precip eggs (d - 1)).2 := by
  obtain ⟨e, rfl⟩ : ∃ e, d = e + 2 := ⟨d - 2, by omega⟩
  have e1 : e + 2 - 1 = e + 1 := by omega
  rw [e1, pop_succ]
  split_ifs with h1 h2 <;> dsimp only <;> omega

/-- The total population from day 59 on equals the day-59 total. -/
theorem pop_sum_const (temp precip : ℕ → ℚ) (eggs : ℤ) :
    ∀ j, (slf_population_model temp precip eggs (59 + j)).1 +
        (slf_population_model temp precip eggs (59 + j)).2 =
      (slf_population_model temp precip eggs 59).1 +
        (slf_population_model temp precip eggs 59).2
  | 0 => rfl
  | j + 1 => by
    have ih := pop_sum_const temp precip eggs j
    have h := pop_sum_step temp precip eggs (59 + (j + 1)) (by omega)
    have e1 : 59 + (j + 1) - 1 = 59 + j := by omega
    rw [e1] at h
    omega

/-- C5 counterexample: the daily increment is truncated, not rounded to
nearest.  With 160 eggs and optimal constant weather, the product on day 2
is 1.6: the code yields 160 + int(1.6) = 161, while the claim's formula
`immature[1] + round(1.6)` yields 162. -/
theorem C5_counterexample :
    (slf_population_model t25 p5 160 2).1 = 161 ∧
    (slf_population_model t25 p5 160 1).1 +
      round (((slf_population_model t25 p5 160 1).1 : ℚ) * 0.01 *
        tempFactor (t25 2) * precipFactor (p5 2)) = 162 ∧
    (161 : ℤ) ≠ 162 := by
  refine ⟨by decide, by decide, by decide⟩

/-- C5 (amended): on every day d in 2..59 the immature count advances by
the TRUNCATED (Python `int()`, equal to the floor on these non-negative
values) product `previous * 0.01 * tempFactor * precipFactor`, and the
mature count stays 0. -/
theorem C5_early_recurrence (temp precip : ℕ → ℚ) (eggs : ℤ) (d : ℕ)
    (h2 : 2 ≤ d) (h59 : d ≤ 59) :
    (slf_population_model temp precip eggs d).1 =
      (slf_population_model temp precip eggs (d - 1)).1 +
        pyInt (((slf_population_model temp precip eggs (d - 1)).1 : ℚ) * 0.01 *
          tempFactor (temp d) * precipFactor (precip d)) ∧
    (slf_population_model temp precip eggs d).2 = 0 := by
  obtain ⟨e, rfl⟩ : ∃ e, d = e + 2 := ⟨d - 2, by omega⟩
  have e1 : e + 2 - 1 = e + 1 := by omega
  rw [e1, pop_succ, if_pos (by omega : e + 2 < 60)]
  exact ⟨rfl, early_mat_zero temp precip eggs (e + 1) (by omega)⟩

/-- C5 witness: the amended recurrence instantiated at day 2 of the
1000-egg constant-weather scenario. -/
theorem C5_early_recurrence_witness :
    (slf_population_model t25 p5 1000 2).1 =
      (slf_population_model t25 p5 1000 1).1 +
        pyInt (((slf_population_model t25 p5 1000 1).1 : ℚ) * 0.01 *
          tempFactor (t25 2) * precipFactor (p5 2)) ∧
    (slf_population_model t25 p5 1000 2).2 = 0 :=
  C5_early_recurrence t25 p5 1000 2 (by norm_num) (by norm_num)

/-- C6 counterexample: in Scenario A (temp 25, precip 5, 183 days, 1000
eggs) the day-183 mature count is 1743, not the day-1 immature count 1000
— the early phase grows the population, so no conservation back to day 1
holds, and the 743-head discrepancy is far beyond rounding. -/
theorem C6_counterexample :
    (slf_population_model t25 p5 1000 183).2 = 1743 ∧ (1743 : ℤ) ≠ 1000 := by
  refine ⟨by decide, by decide⟩

/-- C6 (amended): in Scenario A the immature count rises strictly every
day during days 2-59 and is 0 on every day 120-183, and the day-183
mature count equals the day-59 immature count (1743) — conservation holds
back to day 59, not day 1. -/
theorem C6_scenarioA :
    ((List.range' 2 58).all (fun d =>
      decide ((slf_population_model t25 p5 1000 (d - 1)).1 <
        (slf_population_model t25 p5 1000 d).1)) = true) ∧
    ((List.range' 120 64).all (fun d =>
      decide ((slf_population_model t25 p5 1000 d).1 = 0)) = true) ∧
    (slf_population_model t25 p5 1000 183).2 =
      (slf_population_model t25 p5 1000 59).1 ∧
    (slf_population_model t25 p5 1000 59).1 = 1743 := by
  refine ⟨by decide, by decide, by decide, by decide⟩

/-- C7: for every input series and non-negative initial egg count, both
population counts are non-negative on every day, and from day 120 on the
immature count is 0 while the mature count never decreases. -/
theorem C7_invariants (temp precip : ℕ → ℚ) (eggs : ℤ) (he : 0 ≤ eggs)
    (d : ℕ) :
    0 ≤ (slf_population_model temp precip eggs d).1 ∧
    0 ≤ (slf_population_model temp precip eggs d).2 ∧
    (120 ≤ d → (slf_population_model temp precip eggs d).1 = 0 ∧
      (slf_population_model temp precip eggs (d - 1)).2 ≤
        (slf_population_model temp precip eggs d).2) := by
  refine ⟨(pop_nonneg temp precip eggs he d).1,
    (pop_nonneg temp precip eggs he d).2, fun h120 => ⟨late_imm_zero temp precip eggs d h120, ?_⟩⟩
  obtain ⟨e, rfl⟩ : ∃ e, d = e + 2 := ⟨d - 2, by omega⟩
  have e1 : e + 2 - 1 = e + 1 := by omega
  have hn := (pop_nonneg temp precip eggs he (e + 1)).1
  rw [e1, pop_succ, if_neg (by omega), if_neg (by omega)]
  dsimp only
  omega

/-- C7 witness: the invariants instantiated at day 120 of the scheduler's
default 10-egg population. -/
theorem C7_invariants_witness :
    0 ≤ (slf_population_model t25 p5 10 120).1 ∧
    0 ≤ (slf_population_model t25 p5 10 120).2 ∧
    (120 ≤ 120 → (slf_population_model t25 p5 10 120).1 = 0 ∧
      (slf_population_model t25 p5 10 119).2 ≤
        (slf_population_model t25 p5 10 120).2) :=
  C7_invariants t25 p5 10 (by norm_num) 120

/-- C10: from day 60 on each day preserves the total population
(immature + mature), and consequently on every day N >= 120 the mature
count equals the immature count as it stood at day 59. -/
theorem C10_conservation (temp precip : ℕ → ℚ) (eggs : ℤ) :
    (∀ d, 60 ≤ d →
      (slf_population_model temp precip eggs d).1 +
        (slf_population_model temp precip eggs d).2 =
      (slf_population_model temp precip eggs (d - 1)).1 +
        (slf_population_model temp precip eggs (d - 1)).2) ∧
    (∀ N, 120 ≤ N →
      (slf_population_model temp precip eggs N).2 =
        (slf_population_model temp precip eggs 59).1) := by
  constructor
  · intro d hd
    exact pop_sum_step temp precip eggs d hd
  · intro N hN
    obtain ⟨j, rfl⟩ : ∃ j, N = 59 + j := ⟨N - 59, by omega⟩
    have h1 := pop_sum_const temp precip eggs j
    have h2 := late_imm_zero temp precip eggs (59 + j) (by omega)
    have h3 := early_mat_zero temp precip eggs 59 (by omega)
    omega

/-- C10 witness: conservation instantiated at day 60 and day 120 of the
1000-egg constant-weather run. -/
theorem C10_conservation_witness :
    (slf_population_model t25 p5 1000 60).1 +
      (slf_population_model t25 p5 1000 60).2 =
    (slf_population_model t25 p5 1000 59).1 +
      (slf_population_model t25 p5 1000 59).2 ∧
    (slf_population_model t25 p5 1000 120).2 =
      (slf_population_model t25 p5 1000 59).1 :=
  ⟨(C10_conservation t25 p5 1000).1 60 (by norm_num),
   (C10_conservation t25 p5 1000).2 120 (by norm_num)⟩

/-- If the first product passing both the candidate condition and the
harvest check is p, the scan commits p: it computes p's dose, updates the
ledger, and then either raises the cap error (post-commit check) or
returns the applied decision.  The schedule cell passed in is irrelevant
to this outcome. -/
theorem scan_eq_of_find_some (all : List Product) (day : ℤ) (autumn : Bool)
    (n a harvest : ℤ) :
    ∀ (tbl : List Product) (led : Ledger) (cell : Option String) (p : Product),
      tbl.find? (applyPredB day autumn harvest led) = some p →
      scanProducts all day autumn n a harvest tbl led cell =
        (if (commitLedger led p day (doseOf all autumn n a p)).usage p.name >
            (lookupFirst all p.name).seasonalMax then
          Except.error (capMsg p.name)
        else Except.ok (some p.name, doseOf all autumn n a p,
          commitLedger led p day (doseOf all autumn n a p), true))
  | [], led, cell, p, h => by simp [List.find?] at h
  | q :: rest, led, cell, p, h => by
    by_cases hc : rowCondB q day autumn led = true
    · by_cases hh : day ≤ harvest - q.phi
      · have hap : applyPredB day autumn harvest led q = true := by
          simp [applyPredB, hc, hh]
        rw [List.find?_cons_of_pos _ hap] at h
        injection h with h
        subst h
        simp only [scanProducts, if_pos hc, if_pos hh]
      · have hap : ¬ applyPredB day autumn harvest led q = true := by
          simp [applyPredB, hh]
        rw [List.find?_cons_of_neg _ hap] at h
        rw [scanProducts, if_pos hc, if_neg hh]
        exact scan_eq_of_find_some all day autumn n a harvest rest led
          (some q.name) p h
    · have hap : ¬ applyPredB day autumn harvest led q = true := by
        simp [applyPredB, hc]
      rw [List.find?_cons_of_neg _ hap] at h
      rw [scanProducts, if_neg hc]
      exact scan_eq_of_find_some all day autumn n a harvest rest led cell p h

/-- If no product passes both the candidate condition and the harvest
check, the scan applies nothing and leaves the ledger untouched. -/
theorem scan_no_apply_of_find_none (all : List Product) (day : ℤ)
    (autumn : Bool) (n a harvest : ℤ) :
    ∀ (tbl : List Product) (led : Ledger) (cell : Option String),
      tbl.find? (applyPredB day autumn harvest led) = none →
      ∃ c, scanProducts all day autumn n a harvest tbl led cell =
        Except.ok (c, 0, led, false)
  | [], led, cell, _ => ⟨cell, rfl⟩
  | q :: rest, led, cell, h => by
    by_cases hap : applyPredB day autumn harvest led q = true
    · rw [List.find?_cons_of_pos _ hap] at h
      exact absurd h (by simp)
    · rw [List.find?_cons_of_neg _ hap] at h
      by_cases hc : rowCondB q day autumn led = true
      · have hh : ¬ day ≤ harvest - q.phi := by
          intro hh
          exact hap (by simp [applyPredB, hc, hh])
        obtain ⟨c, hrec⟩ := scan_no_apply_of_find_none all day autumn n a
          harvest rest led (some q.name) h
        refine ⟨c, ?_⟩
        rw [scanProducts, if_pos hc, if_neg hh]
        exact hrec
      · obtain ⟨c, hrec⟩ := scan_no_apply_of_find_none all day autumn n a
          harvest rest led cell h
        refine ⟨c, ?_⟩
        rw [scanProducts, if_neg hc]
        exact hrec

/-- A scan that reports an application always reports the applied
product's name in the schedule cell. -/
theorem scan_applied_cell (all : List Product) (day : ℤ) (autumn : Bool)
    (n a harvest : ℤ) :
    ∀ (tbl : List Product) (led : Ledger) (cell : Option String)
      (c : Option String) (r : ℚ) (l : Ledger),
      scanProducts all day autumn n a harvest tbl led cell =
        Except.ok (c, r, l, true) → ∃ nm, c = some nm
  | [], led, cell, c, r, l, h => by
    simp only [scanProducts, Except.ok.injEq, Prod.mk.injEq] at h
    exact absurd h.2.2.2 (by simp)
  | q :: rest, led, cell, c, r, l, h => by
    by_cases hc : rowCondB q day autumn led = true
    · by_cases hh : day ≤ harvest - q.phi
      · rw [scanProducts, if_pos hc, if_pos hh] at h
        by_cases hcap : (commitLedger led q day (doseOf all autumn n a q)).usage
            q.name > (lookupFirst all q.name).seasonalMax
        · rw [if_pos hcap] at h
          exact absurd h (by simp)
        · rw [if_neg hcap] at h
          simp only [Except.ok.injEq, Prod.mk.injEq] at h
          exact ⟨q.name, h.1.symm⟩
      · rw [scanProducts, if_pos hc, if_neg hh] at h
        exact scan_applied_cell all day autumn n a harvest rest led
          (some q.name) c r l h
    · rw [scanProducts, if_neg hc] at h
      exact scan_applied_cell all day autumn n a harvest rest led cell c r l h

/-- C1 (amended): the scan applies exactly the FIRST product of the table
satisfying the code's checked conditions — in summer: efficacy on nymphs
>= 0.75, class interval `day - lastUse > PHI`, PRE-dose cumulative volume
strictly below seasonalMaxVolume, and count below maxApplicationsPerSeason;
in autumn: only efficacy on adults >= 0.75 — together with
`day <= harvestDay - PHI`; no other product is ever applied (a candidate
passing the seasonal checks but failing the harvest check is only
transiently recorded), and the application is suppressed by the
post-commit cap error when the committed volume exceeds the cap. -/
theorem C1_first_match_selection (all : List Product) (day : ℤ)
    (autumn : Bool) (n a harvest : ℤ) (tbl : List Product) (led : Ledger)
    (cell : Option String) :
    scanApplied (scanProducts all day autumn n a harvest tbl led cell) =
      (match tbl.find? (applyPredB day autumn harvest led) with
       | none => none
       | some p =>
         if (commitLedger led p day (doseOf all autumn n a p)).usage p.name >
             (lookupFirst all p.name).seasonalMax then none
         else some p.name) := by
  cases hf : tbl.find? (applyPredB day autumn harvest led) with
  | none =>
    obtain ⟨c, hsc⟩ := scan_no_apply_of_find_none all day autumn n a harvest
      tbl led cell hf
    rw [hsc]
    rfl
  | some p =>
    rw [scan_eq_of_find_some all day autumn n a harvest tbl led cell p hf]
    by_cases hcap : (commitLedger led p day (doseOf all autumn n a p)).usage
        p.name > (lookupFirst all p.name).seasonalMax
    · rw [if_pos hcap]
      simp [scanApplied, hcap]
    · rw [if_neg hcap]
      simp [scanApplied, hcap]

/-- C1 counterexample: in the full 183-day Alpha run, day 120 (autumn)
selects and records product Alpha in the returned schedule although Alpha
fails claimed condition (4): its application count before that day is
already 92, not below maxApplicationsPerSeason = 92 — the autumn branch
of the code checks only the efficacy gate. -/
theorem C1_counterexample :
    ((exceptOk runAlpha183).bind (fun rows =>
      (rows.find? (fun r => r.day == 120)).map (fun r => r.pesticide))) =
      some (some ("Alpha")) ∧
    (alphaLedger119.map (fun l =>
      decide (l.useCount ("Alpha") < alphaP.maxApps))) = some false := by
  refine ⟨by decide, by decide⟩

/-- C2 (amended): the seasonal-cap check runs AFTER the ledger commit —
whenever the first applicable product's post-commit cumulative volume
exceeds its seasonal cap, the run aborts with the cap ValueError, whose
message identifies the product but not the day; in particular a product
whose seasonalMaxVolume (here 5, positive but below the dose 64) is
smaller than a single dose triggers the error on its first use (day 1 of
the Beta run). -/
theorem C2_post_commit_cap_error :
    (∀ (all : List Product) (day : ℤ) (autumn : Bool) (n a harvest : ℤ)
       (tbl : List Product) (led : Ledger) (cell : Option String)
       (p : Product),
       tbl.find? (applyPredB day autumn harvest led) = some p →
       (commitLedger led p day (doseOf all autumn n a p)).usage p.name >
         (lookupFirst all p.name).seasonalMax →
       scanProducts all day autumn n a harvest tbl led cell =
         Except.error (capMsg p.name)) ∧
    exceptErr runBeta = some (capMsg "Beta") := by
  constructor
  · intro all day autumn n a harvest tbl led cell p hfind hcap
    rw [scan_eq_of_find_some all day autumn n a harvest tbl led cell p hfind,
      if_pos hcap]
  · decide

/-- C2 witness: the cap-error rule applied to the concrete Beta scan on
day 1 — the pre-dose usage 0 passes the scan's own check, the committed
usage 64 exceeds the cap 5, and the scan errors with Beta's message. -/
theorem C2_post_commit_cap_error_witness :
    scanProducts [betaP] 1 false 10 0 200 [betaP] initLedger none =
      Except.error (capMsg "Beta") :=
  C2_post_commit_cap_error.1 [betaP] 1 false 10 0 200 [betaP] initLedger none
    betaP (by decide) (by decide)

/-- C2 counterexample: the seasonal-cap error of the Beta run names the
product but contains no digit at all, so it does not identify the day
(day 1) on which the violation happened, contrary to the claim that the
error identifies product AND day. -/
theorem C2_counterexample :
    exceptErr runBeta =
      some ("Seasonal Max exceeded for chosen pesticide Beta.") ∧
    (("Seasonal Max exceeded for chosen pesticide Beta.").data.all
      (fun c => !c.isDigit)) = true := by
  refine ⟨by decide, by decide⟩

/-- C4 (amended): when the first applicable product p clears the
post-commit cap check, the scan returns exactly: p's name recorded, the
dose `6.4 * (efficacyRating * relevant population count)` — the
population-scaled Effect_on column, NOT a bare efficacy in the unit
interval — and the ledger with cumulative volume, application count and
class last-use day all updated in the same single state transition. -/
theorem C4_dose_and_commit (all : List Product) (day : ℤ) (autumn : Bool)
    (n a harvest : ℤ) (tbl : List Product) (led : Ledger)
    (cell : Option String) (p : Product)
    (hfind : tbl.find? (applyPredB day autumn harvest led) = some p)
    (hcap : ¬ (commitLedger led p day (doseOf all autumn n a p)).usage p.name >
      (lookupFirst all p.name).seasonalMax) :
    scanProducts all day autumn n a harvest tbl led cell =
      Except.ok (some p.name, doseOf all autumn n a p,
        commitLedger led p day (doseOf all autumn n a p), true) := by
  rw [scan_eq_of_find_some all day autumn n a harvest tbl led cell p hfind,
    if_neg hcap]

/-- C4 witness: the dose-and-commit rule applied to the concrete Alpha
scan on day 1 (summer, 10 nymphs): dose 6.4 * (1 * 10) = 64. -/
theorem C4_dose_and_commit_witness :
    scanProducts [alphaP] 1 false 10 0 200 [alphaP] initLedger none =
      Except.ok (some ("Alpha"), doseOf [alphaP] false 10 0 alphaP,
        commitLedger initLedger alphaP 1 (doseOf [alphaP] false 10 0 alphaP),
        true) :=
  C4_dose_and_commit [alphaP] 1 false 10 0 200 [alphaP] initLedger none alphaP
    (by decide) (by decide)

/-- C4 counterexample: day 1 of the full 183-day Alpha run records
application rate 64, and 64 is not `6.4 * e` for any efficacy `e` in the
unit interval — the recorded dose depends on the day's population count
(10 nymphs), contrary to the claim. -/
theorem C4_counterexample :
    ((exceptOk runAlpha183).bind (fun rows =>
      (rows.find? (fun r => r.day == 1)).map (fun r => r.rate))) =
      some 64 ∧
    ¬ (∃ e : ℚ, 0 ≤ e ∧ e ≤ 1 ∧ (64 : ℚ) = 6.4 * e) := by
  constructor
  · decide
  · rintro ⟨e, h0, h1, he⟩
    linarith

/-- C3 (amended): a day whose pressure requires treatment never completes
with a silent no-treatment row — any day that the day loop completes
without error and that is pressured carries an applied product, and a
pressured day whose scan applies nothing aborts with the ValueError
naming the day; Scenario B realized in the summer phase: the Gamma run
(one product, maxApplicationsPerSeason = 1, pressure on days 1 and 2)
aborts on day 2, the second qualifying day. -/
theorem C3_no_silent_skip :
    (∀ (temp precip : ℕ → ℚ) (tbl : List Product) (harvest : ℤ)
       (led : Ledger) (day : ℕ) (row : Row) (led2 : Ledger),
       dayStep temp precip tbl harvest led day = Except.ok (row, led2) →
       pressureB day (slf_population_model temp precip 10 day).1
         (slf_population_model temp precip 10 day).2 = true →
       row.pesticide ≠ none) ∧
    exceptErr runGamma = some (noPestMsg 2) := by
  constructor
  · intro temp precip tbl harvest led day row led2 hstep hpress
    simp only [dayStep] at hstep
    rw [if_pos hpress] at hstep
    split at hstep
    · exact absurd hstep (by simp)
    · rename_i cell rate led3 applied heq
      split at hstep
      · rename_i happ
        subst happ
        obtain ⟨nm, hnm⟩ := scan_applied_cell tbl (day : ℤ) (decide (92 < day))
          (slf_population_model temp precip 10 day).1
          (slf_population_model temp precip 10 day).2 harvest tbl led none
          cell rate led3 heq
        simp only [Except.ok.injEq, Prod.mk.injEq] at hstep
        rw [← hstep.1]
        simp [hnm]
      · exact absurd hstep (by simp)
  · decide

/-- C3 witness: day 1 of the Alpha run is pressured, completes, and indeed
records an applied product. -/
theorem C3_no_silent_skip_witness : d1pair.1.pesticide ≠ none :=
  C3_no_silent_skip.1 t25 p5 [alphaP] 200 initLedger 1 d1pair.1 d1pair.2 rfl
    (by decide)

/-- C3 counterexample: on day 120 of the full 183-day Alpha run the
pressure threshold requires treatment and the only product fails the
claim's five-condition qualification (its count, 92, is not below
maxApplicationsPerSeason = 92), yet the run does not abort: it returns a
schedule — the autumn branch of the code never checks conditions (2)-(4). -/
theorem C3_counterexample :
    exceptOk runAlpha183 ≠ none ∧
    (alphaLedger119.map (fun l => claimFiveConditions alphaP [alphaP] 120 true
      (slf_population_model t25 p5 10 120).1
      (slf_population_model t25 p5 10 120).2 200 l)) = some false ∧
    pressureB 120 (slf_population_model t25 p5 10 120).1
      (slf_population_model t25 p5 10 120).2 = true := by
  refine ⟨by decide, by decide, by decide⟩

/-- A completed day keeps its day number in the decision row. -/
theorem dayStep_day (temp precip : ℕ → ℚ) (tbl : List Product) (harvest : ℤ)
    (led : Ledger) (d : ℕ) (row : Row) (led2 : Ledger)
    (h : dayStep temp precip tbl harvest led d = Except.ok (row, led2)) :
    row.day = d := by
  simp only [dayStep] at h
  by_cases hp : pressureB d (slf_population_model temp precip 10 d).1
      (slf_population_model temp precip 10 d).2 = true
  · rw [if_pos hp] at h
    split at h
    · exact absurd h (by simp)
    · rename_i cell rate led3 applied heq
      split at h
      · simp only [Except.ok.injEq, Prod.mk.injEq] at h
        rw [← h.1]
      · exact absurd h (by simp)
  · rw [if_neg hp] at h
    simp only [Except.ok.injEq, Prod.mk.injEq] at h
    rw [← h.1]

/-- A completed day loop emits exactly one row per processed day, in
order. -/
theorem runDays_days (temp precip : ℕ → ℚ) (tbl : List Product)
    (harvest : ℤ) :
    ∀ (ds : List ℕ) (led : Ledger) (rows : List Row) (l : Ledger),
      runDays temp precip tbl harvest ds led = Except.ok (rows, l) →
      rows.map (fun r => r.day) = ds
  | [], led, rows, l, h => by
    simp only [runDays, Except.ok.injEq, Prod.mk.injEq] at h
    rw [← h.1]
    rfl
  | d :: ds, led, rows, l, h => by
    rw [runDays] at h
    split at h
    · exact absurd h (by simp)
    · rename_i row led2 heq
      split at h
      · exact absurd h (by simp)
      · rename_i rows2 l3 heq2
        simp only [Except.ok.injEq, Prod.mk.injEq] at h
        rw [← h.1]
        simp only [List.map_cons]
        rw [dayStep_day temp precip tbl harvest led d row led2 heq,
          runDays_days temp precip tbl harvest ds led2 rows2 l3 heq2]

/-- Filtering rows on their day then projecting the day equals projecting
then filtering. -/
theorem filter_map_day (c : ℤ) :
    ∀ (l : List Row),
      (l.filter (fun r => decide ((r.day : ℤ) ≤ c))).map (fun r => r.day) =
        (l.map (fun r => r.day)).filter (fun (d : ℕ) => decide ((d : ℤ) ≤ c))
  | [] => rfl
  | r :: rs => by
    by_cases h : decide ((r.day : ℤ) ≤ c) = true
    · simp [List.filter_cons, h, filter_map_day c rs]
    · simp [List.filter_cons, h, filter_map_day c rs]

/-- C8 (amended): whatever the outcome (runs with N other than 183 die
before scheduling; runs at N = 183 may still abort in the day loop), the
day list of a completed schedule is exactly `[1..N]` filtered to
`day <= harvestDay - maxPHI` — one row per day of
`1..min(N, harvestDay - maxPHI)`, increasing, no gaps, no duplicates;
days beyond the season length are absent even when
`harvestDay - maxPHI` exceeds it. -/
theorem C8_schedule_days (temp precip : ℕ → ℚ) (N : ℕ) (harvest : ℤ)
    (tbl : List Product) :
    mapOk (fun rows => rows.map (fun r => r.day))
        (pesticide_application_strategy temp precip N harvest tbl) =
      mapOk (fun _ => (List.range' 1 N).filter
          (fun (d : ℕ) => decide ((d : ℤ) ≤ harvest - maxPHI tbl)))
        (pesticide_application_strategy temp precip N harvest tbl) := by
  unfold pesticide_application_strategy
  by_cases h1 : N < 183
  · rw [if_pos h1]
    rfl
  · rw [if_neg h1]
    by_cases h2 : 183 < N
    · rw [if_pos h2]
      rfl
    · rw [if_neg h2]
      cases hr : runDays temp precip tbl harvest (List.range' 1 N) initLedger with
      | error e => rfl
      | ok rl =>
        obtain ⟨rows, l⟩ := rl
        have hdays := runDays_days temp precip tbl harvest (List.range' 1 N)
          initLedger rows l hr
        simp only [mapOk]
        rw [filter_map_day (harvest - maxPHI tbl) rows, hdays]

/-- C8 counterexample: the full 183-day Alpha run with harvest day 400
and maxPHI 0 completes and returns rows for days 1..183 only — although
day 400 satisfies `day <= harvestDay - maxPHI`, no row for it (nor for
days 184..400) exists, so the schedule does not cover `1..harvestDay -
maxPHI` when that bound exceeds the season length. -/
theorem C8_counterexample :
    ((exceptOk runAlpha400).map (fun rows => rows.map (fun r => r.day))) =
      some (List.range' 1 183) ∧
    maxPHI [alphaP] = 0 ∧
    ((400 : ℤ) ≤ 400 - maxPHI [alphaP]) ∧
    ¬ ((400 : ℕ) ∈ List.range' 1 183) := by
  refine ⟨by decide, by decide, by decide, by decide⟩

/-- C9: the Outcome Evaluator is NOT total — on any schedule containing an
application (positive rate) it dies evaluating `df['harvest_day']`, a
column the schedule does not have (modelled as the KeyError); on an
application-free schedule it returns
`max(0, baseYield - moldImpact) * price - 0` as the claim's formula says
(here 1000 - 20 mold units, price 3: 2940). -/
theorem C9_profit_evaluator :
    exceptErr (calculate_profit 100 20 [⟨1, 25, 5, 10, 0, some ("Alpha"), 64⟩]
        2 1000 3 1 1) = some ("KeyError: harvest_day") ∧
    exceptOk (calculate_profit 100 20
        [⟨1, 25, 5, 10, 0, none, 0⟩, ⟨2, 25, 5, 10, 0, none, 0⟩]
        2 1000 3 1 1) = some 2940 := by
  refine ⟨by decide, by decide⟩
